import Mathlib

/-!
Verification of the cache-refresh / query service in `src/main.py`
(FastAPI order-assistant bot).

The Python program is embedded shallowly:

* scalar cell values coming back from `pyodbc` are modelled by `Value`
  (strings, integers, SQL NULL, and `datetime` objects);
* an order record (a Python `dict` built by `dict(zip(columns, row))`)
  is an insertion-ordered association list with last-write-wins updates,
  exactly the observable behaviour of a Python `dict`;
* the on-disk JSON document is modelled by `Snapshot`; the state of the
  backing file by `FileState` (absent, unparseable, or a parsed snapshot);
* fallible external calls (the database fetch, the Gemini model call) are
  modelled by explicit outcome types that the embedded functions match on;
* Python functions that mutate the file are state-passing functions
  `FileState → (result × FileState)`.
-/

/-- Calendar/clock value standing for a Python `datetime` object. -/
structure DateTime where
  year : Nat
  month : Nat
  day : Nat
  hour : Nat
  minute : Nat
  second : Nat
deriving DecidableEq, Repr

/-- Zero-pad a numeral to two digits, as `strftime` renders `%m %d %H %M %S`. -/
def pad2 (n : Nat) : String :=
  if n < 10 then "0" ++ toString n else toString n

/-- Zero-pad a numeral to four digits, as CPython `strftime` renders `%Y`. -/
def pad4 (n : Nat) : String :=
  if n < 10 then "000" ++ toString n
  else if n < 100 then "00" ++ toString n
  else if n < 1000 then "0" ++ toString n
  else toString n

/-- Embeds `value.strftime('%Y-%m-%d %H:%M:%S')` from `src/main.py`. -/
def DateTime.format (d : DateTime) : String :=
  pad4 d.year ++ "-" ++ pad2 d.month ++ "-" ++ pad2 d.day ++ " " ++
    pad2 d.hour ++ ":" ++ pad2 d.minute ++ ":" ++ pad2 d.second

/-- Scalar value of one database cell / one JSON leaf. -/
inductive Value where
  | str (s : String)
  | num (n : Int)
  | null
  | datetime (d : DateTime)
deriving DecidableEq, Repr

/-- One order record: a Python dict keyed by column name, in insertion order. -/
abbrev OrderRecord := List (String × Value)

/-- Document written by `load_orders_from_db` and read back by
`load_orders_from_file`: `{orders, last_updated, total_orders}`. -/
structure Snapshot where
  orders : List OrderRecord
  last_updated : String
  total_orders : Nat
deriving DecidableEq, Repr

/-- State of the backing file `hp_order_data.json`: missing, present but not
valid JSON (so `json.load` raises), or present and parsing to a snapshot. -/
inductive FileState where
  | absent
  | corrupt
  | snapshot (s : Snapshot)
deriving DecidableEq, Repr

/-- Insert-or-overwrite one key, with Python-dict semantics: an existing key
keeps its position and gets the new value, a new key is appended. -/
def dictInsert (d : OrderRecord) (k : String) (v : Value) : OrderRecord :=
  if d.any (fun p => p.1 = k) then
    d.map (fun p => if p.1 = k then (k, v) else p)
  else
    d ++ [(k, v)]

/-- Embeds `dict(zip(columns, row))` from `src/main.py`: pairs are truncated
to the shorter list and inserted left to right. -/
def dictZip (columns : List String) (row : List Value) : OrderRecord :=
  (columns.zip row).foldl (fun d kv => dictInsert d kv.1 kv.2) []

/-- Embeds the conversion loop of `load_orders_from_db`: a `datetime` value
is replaced by its `strftime` rendering, any other value is untouched. -/
def normalizeValue : Value → Value
  | .datetime d => .str d.format
  | v => v

/-- Apply `normalizeValue` to every value of a record, keys untouched
(the `for key, value in order_dict.items()` loop in `src/main.py`). -/
def normalizeRecord (r : OrderRecord) : OrderRecord :=
  r.map (fun kv => (kv.1, normalizeValue kv.2))

/-- Build one order record from one fetched row, as `load_orders_from_db`
does: `dict(zip(columns, row))` followed by datetime normalization. -/
def rowToOrder (columns : List String) (row : List Value) : OrderRecord :=
  normalizeRecord (dictZip columns row)

/-- Lower-case hexadecimal digit, used by JSON control-character escapes. -/
def hexDigit (n : Nat) : Char :=
  if n < 10 then Char.ofNat (48 + n) else Char.ofNat (87 + n)

/-- Escape one character as `json.dumps(..., ensure_ascii=False)` does:
quote and backslash are escaped, control characters use short escapes or
`\u00XX`, everything else passes through verbatim. -/
def jsonEscapeChar (c : Char) : String :=
  if c = '"' then "\\\""
  else if c = '\\' then "\\\\"
  else if c = '\n' then "\\n"
  else if c = '\r' then "\\r"
  else if c = '\t' then "\\t"
  else if c.toNat = 8 then "\\b"
  else if c.toNat = 12 then "\\f"
  else if c.toNat < 32 then
    "\\u00" ++ String.singleton (hexDigit (c.toNat / 16)) ++
      String.singleton (hexDigit (c.toNat % 16))
  else String.singleton c

/-- Escape a whole string for a JSON document. -/
def jsonEscape (s : String) : String :=
  s.toList.foldl (fun acc c => acc ++ jsonEscapeChar c) ""

/-- Serialize one scalar as `json.dumps` renders it. A `datetime` object is
not JSON-serializable: `json.dump` raises `TypeError`, modelled as `none`
(the conversion loop in `load_orders_from_db` makes this unreachable for
data it writes, proved in `jsonDumpsOrders_normalized_isSome`). -/
def dumpScalar : Value → Option String
  | .str s => some ("\"" ++ jsonEscape s ++ "\"")
  | .num n => some (toString n)
  | .null => some "null"
  | .datetime _ => none

/-- Serialize the `"key": value` members of one record, failing if any value
fails to serialize. -/
def dumpItems : OrderRecord → Option (List String)
  | [] => some []
  | kv :: rest => do
      let v ← dumpScalar kv.2
      let tail ← dumpItems rest
      pure (("\"" ++ jsonEscape kv.1 ++ "\": " ++ v) :: tail)

/-- Serialize one order record as `json.dumps(..., indent=2)` renders a dict
nested at depth 1 inside the orders list. -/
def dumpRecord : OrderRecord → Option String
  | [] => some "\x7b\x7d"
  | kv :: rest => do
      let items ← dumpItems (kv :: rest)
      pure ("\x7b\n    " ++ String.intercalate ",\n    " items ++ "\n  \x7d")

/-- Serialize each record of the orders list. -/
def dumpRecords : List OrderRecord → Option (List String)
  | [] => some []
  | r :: rest => do
      let s ← dumpRecord r
      let tail ← dumpRecords rest
      pure (s :: tail)

/-- Embeds `json.dumps(orders, indent=2, ensure_ascii=False)` for a list of
order records, the serialization used both when writing the cache file and
when embedding records into the Gemini prompt. -/
def jsonDumpsOrders : List OrderRecord → Option String
  | [] => some "[]"
  | r :: rest => do
      let items ← dumpRecords (r :: rest)
      pure ("[\n  " ++ String.intercalate ",\n  " items ++ "\n]")

/-- Outcome of one attempt to fetch the `hp_order` table:
`connError` — `get_db_connection` returned `None` (pyodbc.connect raised);
`queryError` — `cursor.execute`/`fetchall`/`description` raised;
`rows` — the fetch succeeded with these column names and rows. -/
inductive DbFetch where
  | connError
  | queryError
  | rows (columns : List String) (fetched : List (List Value))
deriving DecidableEq, Repr

/-- Embeds `load_orders_from_db` from `src/main.py` as a state-passing
function over the backing file. On `connError` the function returns `False`
before touching the file; on `queryError` the raised exception is caught by
the surrounding `try` and the function returns `False`, still before
`open(DATA_FILE, 'w')` runs, so the file is untouched in both cases. On a
successful fetch it builds the records, stamps `last_updated := now`, sets
`total_orders := len(orders)` and serializes; were serialization to raise
mid-write (impossible after normalization, see
`jsonDumpsOrders_normalized_isSome`), the truncated file would no longer
parse, modelled by `FileState.corrupt`. -/
def load_orders_from_db (fetch : DbFetch) (now : String) (fs : FileState) :
    Bool × FileState :=
  match fetch with
  | .connError => (false, fs)
  | .queryError => (false, fs)
  | .rows columns fetched =>
      let orders := fetched.map (rowToOrder columns)
      let data_to_save : Snapshot :=
        { orders := orders, last_updated := now, total_orders := orders.length }
      match jsonDumpsOrders orders with
      | none => (false, .corrupt)
      | some _ => (true, .snapshot data_to_save)

/-- Embeds `load_orders_from_file` from `src/main.py`: `None` when the file
does not exist (`os.path.exists` is false) and `None` when reading or
parsing raises (caught by the `except` clause); otherwise the parsed
document. The Lean function is total: no exception escapes. -/
def load_orders_from_file : FileState → Option Snapshot
  | .absent => none
  | .corrupt => none
  | .snapshot s => some s

/-- One observable step of the refresh machinery: a fetch-and-write cycle
(`load_orders_from_db()`) or a fixed-interval sleep (`time.sleep(...)`). -/
inductive RefreshStep where
  | fetchWrite
  | sleep
deriving DecidableEq, Repr

/-- Embeds the control flow of `refresh_data_job` in `src/main.py`: the body
of `while True` calls `load_orders_from_db()` first and sleeps afterwards.
`n` is the number of completed loop iterations observed. -/
def refresh_data_job : Nat → List RefreshStep
  | 0 => []
  | n + 1 => RefreshStep.fetchWrite :: RefreshStep.sleep :: refresh_data_job n

/-- Embeds the control flow of `startup_event` in `src/main.py`: one
synchronous `load_orders_from_db()` call, then `start_background_refresh`
launches the `refresh_data_job` loop. -/
def startup_event (n : Nat) : List RefreshStep :=
  RefreshStep.fetchWrite :: refresh_data_job n

/-- Opening segment of the Gemini context f-string in `query_with_gemini`
(the f-string begins with a newline after the triple quote). -/
def ctxSeg1 : String :=
  "\nTum ek helpful e-commerce order assistant ho. Tumhare paas ye orders ka data hai:\n\nTotal Orders: "

/-- Segment between the total count and the last-updated stamp. -/
def ctxSeg2 : String := "\nLast Updated: "

/-- Segment between the last-updated stamp and the serialized records. -/
def ctxSeg3 : String := "\n\nOrders Data:\n"

/-- Truncation note of the context prompt; the f-string includes this line
unconditionally, for every record count. -/
def noteText : String :=
  "Note: Agar 50 se zyada orders hain to sirf pehle 50 dikhaaye gaye hain analysis ke liye."

/-- Segment between the serialized records and the user query: the note line
plus the query label. -/
def ctxSeg4 : String := "\n\n" ++ noteText ++ "\n\nUser ka sawal: "

/-- Closing segment: the fixed response-style instructions. -/
def ctxSeg5 : String :=
  "\n\nInstructions:\n- Urdu aur English mix mein jawab do (user friendly)\n- Data ke base pe accurate answer do\n- Agar specific order ki details chahiye to order ID ya customer name use karo\n- Summary ya statistics chahiye to clear format mein do\n- Agar data mein nahi hai to honestly bata do\n"

/-- Embeds the `context` f-string of `query_with_gemini`: total count,
last-updated stamp, `json.dumps(orders_data['orders'][:50], indent=2,
ensure_ascii=False)`, the (unconditional) truncation note, the literal user
query and the fixed instructions. `none` models `json.dumps` raising on a
non-serializable value. -/
def buildContext (orders_data : Snapshot) (user_query : String) : Option String :=
  match jsonDumpsOrders (orders_data.orders.take 50) with
  | none => none
  | some dumped =>
      some (ctxSeg1 ++ toString orders_data.total_orders ++ ctxSeg2 ++
        orders_data.last_updated ++ ctxSeg3 ++ dumped ++ ctxSeg4 ++ user_query ++ ctxSeg5)

/-- Behaviour of one call to the external Gemini model on a given prompt:
either the text of the response, or the message of the exception the call
(or the `response.text` accessor) raised. -/
inductive GeminiOutcome where
  | success (text : String)
  | failure (err : String)
deriving DecidableEq, Repr

/-- External model as an opaque collaborator: a map from the submitted
prompt to that call's outcome. -/
abbrev GeminiModel := String → GeminiOutcome

/-- Message of the `TypeError` CPython raises when `json.dumps` meets a
`datetime` object. -/
def datetimeDumpError : String := "Object of type datetime is not JSON serializable"

/-- Embeds `query_with_gemini` from `src/main.py`: build the context, submit
it, return `response.text`; any exception raised inside the `try` block
(context serialization or the model call) is caught and rendered as
`"AI response error: ..."`. The Lean function is total: no failure
propagates to the caller. -/
def query_with_gemini (model : GeminiModel) (user_query : String)
    (orders_data : Snapshot) : String :=
  match buildContext orders_data user_query with
  | none => "AI response error: " ++ datetimeDumpError
  | some context =>
      match model context with
      | .success t => t
      | .failure e => "AI response error: " ++ e

/-- Body of a 200 response of `POST /query` (`QueryResponse` in
`src/main.py`), with `data_info` flattened into its two fields. -/
structure QueryResponse where
  answer : String
  data_info_total_orders : Nat
  data_info_last_updated : String
  timestamp : String
deriving DecidableEq, Repr

/-- Result of one request: a 200 body, or an `HTTPException` with its status
code and detail string. -/
inductive HttpResult (α : Type) where
  | ok (value : α)
  | httpError (status : Nat) (detail : String)
deriving DecidableEq, Repr

/-- Detail string of the 503 raised when no data file is loaded. -/
def notLoadedDetail : String := "Data not loaded yet. Please try again."

/-- Rendering `str(e)` of a starlette/FastAPI `HTTPException`:
`f"{status_code}: {detail}"`. -/
def httpExceptionText (status : Nat) (detail : String) : String :=
  toString status ++ ": " ++ detail

/-- Embeds `query_orders` (`POST /query`) from `src/main.py`. The handler
raises `HTTPException(503, ...)` when `load_orders_from_file()` yields no
data — but that `raise` sits inside the `try` block, and `HTTPException` is
an `Exception` subclass, so the `except Exception as e` clause catches it
and re-raises `HTTPException(500, str(e))`: the request actually fails with
status 500, detail `"503: Data not loaded yet. Please try again."`. -/
def query_orders (model : GeminiModel) (query : String) (now : String)
    (fs : FileState) : HttpResult QueryResponse :=
  match load_orders_from_file fs with
  | none => .httpError 500 (httpExceptionText 503 notLoadedDetail)
  | some data =>
      .ok { answer := query_with_gemini model query data,
            data_info_total_orders := data.total_orders,
            data_info_last_updated := data.last_updated,
            timestamp := now }

/-- Body of a `GET /data-stats` response: the no-data message, or the stats
object with `sample_order = data['orders'][0] if data['orders'] else None`. -/
inductive StatsResult where
  | noData (message : String)
  | stats (total_orders : Nat) (last_updated : String)
      (sample_order : Option OrderRecord)
deriving DecidableEq, Repr

/-- Embeds `get_data_stats` (`GET /data-stats`) from `src/main.py`. -/
def get_data_stats (fs : FileState) : StatsResult :=
  match load_orders_from_file fs with
  | none => .noData "No data available"
  | some data => .stats data.total_orders data.last_updated data.orders.head?

/-- Normalized scalars always serialize: the conversion loop leaves no
`datetime` object behind. -/
lemma dumpScalar_normalizeValue_isSome (v : Value) :
    (dumpScalar (normalizeValue v)).isSome := by
  cases v <;> simp [normalizeValue, dumpScalar]

/-- Members of a normalized record always serialize. -/
lemma dumpItems_normalizeRecord_isSome :
    ∀ r : OrderRecord, (dumpItems (normalizeRecord r)).isSome
  | [] => by simp [normalizeRecord, dumpItems]
  | kv :: rest => by
      obtain ⟨v, hv⟩ :=
        Option.isSome_iff_exists.mp (dumpScalar_normalizeValue_isSome kv.2)
      obtain ⟨tail, ht⟩ :=
        Option.isSome_iff_exists.mp (dumpItems_normalizeRecord_isSome rest)
      simp only [normalizeRecord, List.map_cons] at *
      simp [dumpItems, hv, ht]

/-- Normalized records always serialize. -/
lemma dumpRecord_normalizeRecord_isSome (r : OrderRecord) :
    (dumpRecord (normalizeRecord r)).isSome := by
  match r with
  | [] => simp [normalizeRecord, dumpRecord]
  | kv :: rest =>
      obtain ⟨items, hi⟩ :=
        Option.isSome_iff_exists.mp (dumpItems_normalizeRecord_isSome (kv :: rest))
      simp only [normalizeRecord, List.map_cons] at *
      simp [dumpRecord, hi]

/-- Lists of records built by `rowToOrder` always serialize. -/
lemma dumpRecords_rowToOrder_isSome (columns : List String) :
    ∀ rs : List (List Value), (dumpRecords (rs.map (rowToOrder columns))).isSome
  | [] => by simp [dumpRecords]
  | row :: rest => by
      obtain ⟨s, hs⟩ :=
        Option.isSome_iff_exists.mp (dumpRecord_normalizeRecord_isSome (dictZip columns row))
      obtain ⟨tail, ht⟩ :=
        Option.isSome_iff_exists.mp (dumpRecords_rowToOrder_isSome columns rest)
      simp only [List.map_cons] at *
      simp [dumpRecords, rowToOrder, hs, ht]

/-- What `load_orders_from_db` hands to `json.dump` always serializes: the
`datetime` branch of `dumpScalar` is unreachable on its own writes. -/
lemma jsonDumpsOrders_normalized_isSome (columns : List String)
    (rs : List (List Value)) :
    (jsonDumpsOrders (rs.map (rowToOrder columns))).isSome := by
  match rs with
  | [] => simp [jsonDumpsOrders]
  | row :: rest =>
      obtain ⟨items, hi⟩ :=
        Option.isSome_iff_exists.mp (dumpRecords_rowToOrder_isSome columns (row :: rest))
      simp only [List.map_cons] at *
      simp [jsonDumpsOrders, hi]

/-- C1: every snapshot document that `load_orders_from_db` successfully
writes satisfies `total_orders == len(orders)`: the stored count equals the
length of the stored record sequence. -/
theorem c1_write_total_eq_length (fetch : DbFetch) (now : String)
    (fs : FileState) (snap : Snapshot)
    (h : load_orders_from_db fetch now fs = (true, FileState.snapshot snap)) :
    snap.total_orders = snap.orders.length := by
  cases fetch with
  | connError => simp [load_orders_from_db] at h
  | queryError => simp [load_orders_from_db] at h
  | rows columns fetched =>
      obtain ⟨d, hd⟩ :=
        Option.isSome_iff_exists.mp (jsonDumpsOrders_normalized_isSome columns fetched)
      simp only [load_orders_from_db, hd, Prod.mk.injEq, FileState.snapshot.injEq,
        true_and] at h
      subst h
      simp

/-- Witness for C1 at a concrete one-row fetch. -/
theorem c1_write_total_eq_length_witness :
    (⟨[[("id", Value.num 7)]], "2024-01-01 00:00:00", 1⟩ : Snapshot).total_orders =
      (⟨[[("id", Value.num 7)]], "2024-01-01 00:00:00", 1⟩ : Snapshot).orders.length :=
  c1_write_total_eq_length (DbFetch.rows ["id"] [[Value.num 7]])
    "2024-01-01 00:00:00" FileState.absent
    ⟨[[("id", Value.num 7)]], "2024-01-01 00:00:00", 1⟩ (by decide)

/-- C3: a refresh cycle whose fetch fails (connection error or query error)
returns `False` instead of raising, performs no write — the file state is
exactly what it was before the attempt — and consequently a subsequent
`GET /data-stats` read is unaffected. -/
theorem c3_failed_fetch_leaves_store_unchanged (now : String) (fs : FileState) :
    load_orders_from_db DbFetch.connError now fs = (false, fs)
    ∧ load_orders_from_db DbFetch.queryError now fs = (false, fs)
    ∧ get_data_stats (load_orders_from_db DbFetch.connError now fs).2 =
        get_data_stats fs
    ∧ get_data_stats (load_orders_from_db DbFetch.queryError now fs).2 =
        get_data_stats fs := by
  refine ⟨rfl, rfl, ?_, ?_⟩ <;> rfl

/-- C6: `load_orders_from_file` returns the parsed document, and `None` both
when the file does not exist and when parsing fails; being a total function
into `Option`, it raises nothing to its caller. -/
theorem c6_read_absent_or_document :
    load_orders_from_file FileState.absent = none
    ∧ load_orders_from_file FileState.corrupt = none
    ∧ ∀ s : Snapshot, load_orders_from_file (FileState.snapshot s) = some s :=
  ⟨rfl, rfl, fun _ => rfl⟩

/-- C7: when the external model call raises, `query_with_gemini` catches the
failure and returns the textual answer `"AI response error: " ++ e` (or the
serializer's own error text when the prompt itself failed to serialize);
being total, it never propagates an exception to the request path. -/
theorem c7_model_failure_becomes_error_text (q : String) (snap : Snapshot)
    (e : String) :
    (∀ ctx, buildContext snap q = some ctx →
      query_with_gemini (fun _ => GeminiOutcome.failure e) q snap =
        "AI response error: " ++ e)
    ∧ ∃ s, query_with_gemini (fun _ => GeminiOutcome.failure e) q snap =
        "AI response error: " ++ s := by
  constructor
  · intro ctx hctx
    simp [query_with_gemini, hctx]
  · cases hb : buildContext snap q with
    | none => exact ⟨datetimeDumpError, by simp [query_with_gemini, hb]⟩
    | some ctx => exact ⟨e, by simp [query_with_gemini, hb]⟩

/-- Witness for C7 at a concrete empty snapshot and a concrete model error. -/
theorem c7_model_failure_becomes_error_text_witness :
    query_with_gemini (fun _ => GeminiOutcome.failure "quota exceeded")
      "kitne orders hain?" ⟨[], "2024-01-01 00:00:00", 0⟩ =
      "AI response error: " ++ "quota exceeded" :=
  (c7_model_failure_becomes_error_text "kitne orders hain?"
      ⟨[], "2024-01-01 00:00:00", 0⟩ "quota exceeded").1
    (ctxSeg1 ++ "0" ++ ctxSeg2 ++ "2024-01-01 00:00:00" ++ ctxSeg3 ++ "[]" ++
      ctxSeg4 ++ "kitne orders hain?" ++ ctxSeg5) rfl

/-- C2 (bug witness): when no snapshot can be read, `POST /query` responds
with status 500, not 503 — the `raise HTTPException(503, ...)` sits inside
the `try` block and the `except Exception` clause catches it and re-raises
it as `HTTPException(500, str(e))`. The response is never 200-shaped in
that state, but the intended "service unavailable" signal is collapsed into
the generic "internal error" signal. -/
theorem c2_query_without_snapshot_returns_500 (model : GeminiModel)
    (q now : String) :
    query_orders model q now FileState.absent =
      HttpResult.httpError 500 "503: Data not loaded yet. Please try again."
    ∧ query_orders model q now FileState.corrupt =
      HttpResult.httpError 500 "503: Data not loaded yet. Please try again." :=
  ⟨rfl, rfl⟩

/-- C5: after a successful write of the fetched rows, `GET /data-stats`
reports `total_orders` equal to the number of rows written and
`sample_order` equal to the first stored record (`None` — the explicit
no-data value — when zero records were written), and reports the
"No data available" message when the snapshot is absent. -/
theorem c5_stats_after_write (columns : List String)
    (fetched : List (List Value)) (now : String) (fs fs' : FileState)
    (h : load_orders_from_db (DbFetch.rows columns fetched) now fs = (true, fs')) :
    get_data_stats fs' =
      StatsResult.stats fetched.length now ((fetched.map (rowToOrder columns)).head?)
    ∧ (∀ r rest, fetched = r :: rest →
        get_data_stats fs' =
          StatsResult.stats fetched.length now (some (rowToOrder columns r)))
    ∧ (fetched = [] → get_data_stats fs' = StatsResult.stats 0 now none)
    ∧ get_data_stats FileState.absent = StatsResult.noData "No data available" := by
  obtain ⟨d, hd⟩ :=
    Option.isSome_iff_exists.mp (jsonDumpsOrders_normalized_isSome columns fetched)
  simp only [load_orders_from_db, hd, Prod.mk.injEq, true_and] at h
  subst h
  refine ⟨?_, ?_, ?_, rfl⟩
  · simp [get_data_stats, load_orders_from_file]
  · rintro r rest rfl
    simp [get_data_stats, load_orders_from_file]
  · rintro rfl
    simp [get_data_stats, load_orders_from_file]

/-- Witness for C5 at a concrete one-row write. -/
theorem c5_stats_after_write_witness :
    get_data_stats
        (FileState.snapshot ⟨[[("id", Value.num 7)]], "2024-01-01 00:00:00", 1⟩) =
      StatsResult.stats ([[Value.num 7]] : List (List Value)).length
        "2024-01-01 00:00:00"
        (([[Value.num 7]] : List (List Value)).map (rowToOrder ["id"])).head? :=
  (c5_stats_after_write ["id"] [[Value.num 7]] "2024-01-01 00:00:00"
    FileState.absent
    (FileState.snapshot ⟨[[("id", Value.num 7)]], "2024-01-01 00:00:00", 1⟩)
    (by decide)).1

/-- C8 (counterexample): with one completed loop iteration the observed
steps are fetch, fetch, sleep — the loop body fetches immediately when it
starts, before its first sleep — and not the claimed fetch, sleep, fetch. -/
theorem c8_counterexample_immediate_refetch :
    startup_event 1 =
      [RefreshStep.fetchWrite, RefreshStep.fetchWrite, RefreshStep.sleep]
    ∧ startup_event 1 ≠
      [RefreshStep.fetchWrite, RefreshStep.sleep, RefreshStep.fetchWrite] := by
  decide

/-- C8 (amended): startup performs exactly one synchronous fetch-and-write
cycle, and every background loop iteration is fetch-then-write-then-sleep,
so one additional fetch occurs immediately when the loop starts. -/
theorem c8_startup_then_fetch_sleep_loop (n : Nat) :
    startup_event n =
      RefreshStep.fetchWrite ::
        (List.replicate n [RefreshStep.fetchWrite, RefreshStep.sleep]).flatten := by
  have hjob : ∀ m, refresh_data_job m =
      (List.replicate m [RefreshStep.fetchWrite, RefreshStep.sleep]).flatten := by
    intro m
    induction m with
    | zero => rfl
    | succ k ih => simp [refresh_data_job, List.replicate, ih]
  simp [startup_event, hjob]

/-- C9: each fetched row becomes a mapping keyed by column name whose keys
are those of `dict(zip(columns, row))`; every `datetime` value is replaced
by its `YYYY-MM-DD HH:MM:SS` rendering and every non-`datetime` value is
carried through unchanged. -/
theorem c9_row_mapping (columns : List String) (row : List Value) :
    ((rowToOrder columns row).map Prod.fst = (dictZip columns row).map Prod.fst)
    ∧ (∀ kv, kv ∈ dictZip columns row →
        (kv.1, normalizeValue kv.2) ∈ rowToOrder columns row)
    ∧ (∀ d : DateTime, normalizeValue (Value.datetime d) = Value.str d.format)
    ∧ (∀ v : Value, (∀ d : DateTime, v ≠ Value.datetime d) → normalizeValue v = v) := by
  refine ⟨?_, ?_, fun _ => rfl, ?_⟩
  · simp only [rowToOrder, normalizeRecord, List.map_map]
    congr 1
  · intro kv hkv
    exact List.mem_map_of_mem _ hkv
  · intro v hv
    cases v with
    | str s => rfl
    | num n => rfl
    | null => rfl
    | datetime d => exact absurd rfl (hv d)

/-- Witness for C9: a concrete timestamp cell lands in the record as its
fixed-format rendering. -/
theorem c9_row_mapping_witness :
    ("created_at", normalizeValue (Value.datetime ⟨2024, 1, 2, 3, 4, 5⟩)) ∈
      rowToOrder ["created_at"] [Value.datetime ⟨2024, 1, 2, 3, 4, 5⟩] :=
  (c9_row_mapping ["created_at"] [Value.datetime ⟨2024, 1, 2, 3, 4, 5⟩]).2.1
    ("created_at", Value.datetime ⟨2024, 1, 2, 3, 4, 5⟩) (by decide)

/-- C10: a successful cycle writes exactly one record per fetched row, in
fetch order, and `GET /data-stats` then samples the record built from the
first fetched row. -/
theorem c10_orders_in_fetch_order (columns : List String)
    (fetched : List (List Value)) (now : String) (fs fs' : FileState)
    (h : load_orders_from_db (DbFetch.rows columns fetched) now fs = (true, fs')) :
    ∃ snap, fs' = FileState.snapshot snap
    ∧ snap.orders = fetched.map (rowToOrder columns)
    ∧ snap.orders.length = fetched.length
    ∧ (∀ i : Nat, snap.orders[i]? = (fetched[i]?).map (rowToOrder columns))
    ∧ get_data_stats fs' =
        StatsResult.stats fetched.length now
          (fetched.head?.map (rowToOrder columns)) := by
  obtain ⟨d, hd⟩ :=
    Option.isSome_iff_exists.mp (jsonDumpsOrders_normalized_isSome columns fetched)
  simp only [load_orders_from_db, hd, Prod.mk.injEq, true_and] at h
  subst h
  refine ⟨_, rfl, rfl, by simp, ?_, ?_⟩
  · intro i
    simp
  · simp [get_data_stats, load_orders_from_file]

/-- Witness for C10 at a concrete two-row fetch. -/
theorem c10_orders_in_fetch_order_witness :
    ∃ snap,
      FileState.snapshot
          ⟨[[("id", Value.num 1)], [("id", Value.num 2)]],
            "2024-01-01 00:00:00", 2⟩ = FileState.snapshot snap
      ∧ snap.orders =
          ([[Value.num 1], [Value.num 2]] : List (List Value)).map (rowToOrder ["id"])
      ∧ snap.orders.length = ([[Value.num 1], [Value.num 2]] : List (List Value)).length
      ∧ (∀ i : Nat, snap.orders[i]? =
          (([[Value.num 1], [Value.num 2]] : List (List Value))[i]?).map (rowToOrder ["id"]))
      ∧ get_data_stats
            (FileState.snapshot
              ⟨[[("id", Value.num 1)], [("id", Value.num 2)]],
                "2024-01-01 00:00:00", 2⟩) =
          StatsResult.stats ([[Value.num 1], [Value.num 2]] : List (List Value)).length
            "2024-01-01 00:00:00"
            (([[Value.num 1], [Value.num 2]] : List (List Value)).head?.map
              (rowToOrder ["id"])) :=
  c10_orders_in_fetch_order ["id"] [[Value.num 1], [Value.num 2]]
    "2024-01-01 00:00:00" FileState.absent
    (FileState.snapshot
      ⟨[[("id", Value.num 1)], [("id", Value.num 2)]], "2024-01-01 00:00:00", 2⟩)
    (by decide)

set_option maxRecDepth 8000 in
/-- C4 (counterexample): with a single cached record — well under 50 — the
constructed prompt still contains the truncation note: the note is part of
the f-string unconditionally, not only when more than 50 records exist. -/
theorem c4_counterexample_note_without_truncation :
    (⟨[[("id", Value.num 1)]], "2024-01-01 00:00:00", 1⟩ : Snapshot).orders.length ≤ 50
    ∧ ∃ a b,
        buildContext ⟨[[("id", Value.num 1)]], "2024-01-01 00:00:00", 1⟩
            "kitne orders hain?" =
          some (a ++ noteText ++ b) := by
  refine ⟨by decide, ?_⟩
  refine ⟨ctxSeg1 ++ "1" ++ ctxSeg2 ++ "2024-01-01 00:00:00" ++ ctxSeg3 ++
      "[\n  \x7b\n    \"id\": 1\n  \x7d\n]" ++ "\n\n",
    "\n\nUser ka sawal: " ++ "kitne orders hain?" ++ ctxSeg5, ?_⟩
  decide

/-- C4 (amended): whenever the prompt is constructed, it contains the total
order count, the last-updated timestamp, the serialization of exactly the
first 50 records (all of them when there are 50 or fewer), the literal user
query, and — for every record count, not only above 50 — the truncation
note. -/
theorem c4_prompt_contents (snap : Snapshot) (q s : String)
    (h : buildContext snap q = some s) :
    (∃ a b, s = a ++ ("Total Orders: " ++ toString snap.total_orders) ++ b)
    ∧ (∃ a b, s = a ++ ("Last Updated: " ++ snap.last_updated) ++ b)
    ∧ (∃ a b d, jsonDumpsOrders (snap.orders.take 50) = some d ∧ s = a ++ d ++ b)
    ∧ (∃ a b, s = a ++ noteText ++ b)
    ∧ (∃ a b, s = a ++ ("User ka sawal: " ++ q) ++ b) := by
  cases hd : jsonDumpsOrders (snap.orders.take 50) with
  | none => simp [buildContext, hd] at h
  | some d =>
      simp only [buildContext, hd, Option.some.injEq] at h
      subst h
      have e1 : ctxSeg1 =
          "\nTum ek helpful e-commerce order assistant ho. Tumhare paas ye orders ka data hai:\n\n" ++
            "Total Orders: " := by decide
      have e2 : ctxSeg2 = "\n" ++ "Last Updated: " := by decide
      refine ⟨?_, ?_, ?_, ?_, ?_⟩
      · refine ⟨"\nTum ek helpful e-commerce order assistant ho. Tumhare paas ye orders ka data hai:\n\n",
          ctxSeg2 ++ snap.last_updated ++ ctxSeg3 ++ d ++ ctxSeg4 ++ q ++ ctxSeg5, ?_⟩
        rw [e1]
        simp only [String.append_assoc]
      · refine ⟨ctxSeg1 ++ toString snap.total_orders ++ "\n",
          ctxSeg3 ++ d ++ ctxSeg4 ++ q ++ ctxSeg5, ?_⟩
        rw [e2]
        simp only [String.append_assoc]
      · refine ⟨ctxSeg1 ++ toString snap.total_orders ++ ctxSeg2 ++
            snap.last_updated ++ ctxSeg3,
          ctxSeg4 ++ q ++ ctxSeg5, d, rfl, ?_⟩
        simp only [String.append_assoc]
      · refine ⟨ctxSeg1 ++ toString snap.total_orders ++ ctxSeg2 ++
            snap.last_updated ++ ctxSeg3 ++ d ++ "\n\n",
          "\n\nUser ka sawal: " ++ q ++ ctxSeg5, ?_⟩
        simp only [ctxSeg4, String.append_assoc]
      · refine ⟨ctxSeg1 ++ toString snap.total_orders ++ ctxSeg2 ++
            snap.last_updated ++ ctxSeg3 ++ d ++ "\n\n" ++ noteText ++ "\n\n",
          ctxSeg5, ?_⟩
        have e4 : ("\n\nUser ka sawal: " : String) = "\n\n" ++ "User ka sawal: " := by
          decide
        simp only [ctxSeg4, e4, String.append_assoc]

/-- Witness for C4 (amended) at a concrete empty snapshot. -/
theorem c4_prompt_contents_witness :
    (∃ a b, ctxSeg1 ++ "0" ++ ctxSeg2 ++ "2024-02-02 00:00:00" ++ ctxSeg3 ++
        "[]" ++ ctxSeg4 ++ "sawal" ++ ctxSeg5 =
        a ++ ("Total Orders: " ++ toString (0 : Nat)) ++ b)
    ∧ (∃ a b, ctxSeg1 ++ "0" ++ ctxSeg2 ++ "2024-02-02 00:00:00" ++ ctxSeg3 ++
        "[]" ++ ctxSeg4 ++ "sawal" ++ ctxSeg5 =
        a ++ ("Last Updated: " ++ "2024-02-02 00:00:00") ++ b)
    ∧ (∃ a b d, jsonDumpsOrders (([] : List OrderRecord).take 50) = some d ∧
        ctxSeg1 ++ "0" ++ ctxSeg2 ++ "2024-02-02 00:00:00" ++ ctxSeg3 ++
        "[]" ++ ctxSeg4 ++ "sawal" ++ ctxSeg5 = a ++ d ++ b)
    ∧ (∃ a b, ctxSeg1 ++ "0" ++ ctxSeg2 ++ "2024-02-02 00:00:00" ++ ctxSeg3 ++
        "[]" ++ ctxSeg4 ++ "sawal" ++ ctxSeg5 = a ++ noteText ++ b)
    ∧ (∃ a b, ctxSeg1 ++ "0" ++ ctxSeg2 ++ "2024-02-02 00:00:00" ++ ctxSeg3 ++
        "[]" ++ ctxSeg4 ++ "sawal" ++ ctxSeg5 =
        a ++ ("User ka sawal: " ++ "sawal") ++ b) :=
  c4_prompt_contents ⟨[], "2024-02-02 00:00:00", 0⟩ "sawal"
    (ctxSeg1 ++ "0" ++ ctxSeg2 ++ "2024-02-02 00:00:00" ++ ctxSeg3 ++
      "[]" ++ ctxSeg4 ++ "sawal" ++ ctxSeg5) rfl
